import Mathlib

/-!
Shallow embedding of the client-side synchronization core of the
`learn-t3-stack` chat page (`src/pages/channels/[id].tsx`).  The source file
holds two revisions of the page: a first version with inline WebSocket
handling and a second version built around a `useMessages` hook and an
optimistic pending message.  Pure functions below are translated directly
from the handlers and callbacks of that file; stateful React code becomes
explicit state passing.
-/

namespace Iridium

/-- Denormalized author snapshot carried on every message (`User` fields the
page uses: id, name, image). -/
structure User where
  id : String
  name : String
  image : String
deriving DecidableEq, Repr

/-- A chat message as the page sees it (`TextMessage & { author: User }`);
`embeds` is opaque to this core, timestamps are abstracted to `Nat`,
`nonce` is present only on broadcasts of the client's own optimistic sends. -/
structure TextMessage where
  id : String
  channelId : String
  authorId : String
  content : String
  createdTimestamp : Nat
  nonce : Option String
  author : User
  embeds : List String
deriving DecidableEq, Repr

/-- An inbound push-channel envelope `{ type: string, data: TextMessage }`. -/
structure Frame where
  type : String
  data : TextMessage
deriving DecidableEq, Repr

/-- The `wsClient.onmessage` handler of the first page version: for a parsed
frame, if `data.type === 'message'` and `data.data.channelId === channel.id`
and no entry of the log already has the frame's id, the message is appended
at the end (`prevMessages.concat(data.data)`); otherwise the log is left
unchanged. -/
def onmessage (cid : String) (log : List TextMessage) (f : Frame) : List TextMessage :=
  if f.type = "message" then
    if f.data.channelId = cid ∧ ¬ ∃ m ∈ log, m.id = f.data.id then
      log ++ [f.data]
    else log
  else log

/-- Folding the `onmessage` handler over a sequence of delivered frames. -/
def runEvents (cid : String) (log : List TextMessage) (evs : List Frame) : List TextMessage :=
  evs.foldl (onmessage cid) log

/-- Number of entries of the log carrying a given id. -/
def idCount (log : List TextMessage) (i : String) : Nat :=
  log.countP fun m => m.id == i

theorem idCount_pos_iff (log : List TextMessage) (i : String) :
    0 < idCount log i ↔ ∃ m ∈ log, m.id = i := by
  simp [idCount, List.countP_pos_iff]

theorem idCount_append (l₁ l₂ : List TextMessage) (i : String) :
    idCount (l₁ ++ l₂) i = idCount l₁ i + idCount l₂ i := by
  simp [idCount, List.countP_append]

theorem idCount_single (m : TextMessage) (i : String) :
    idCount [m] i = if m.id = i then 1 else 0 := by
  by_cases h : m.id = i <;> simp [idCount, List.countP_cons, h]

theorem onmessage_cases (cid : String) (log : List TextMessage) (f : Frame) :
    onmessage cid log f = log ∨
      (onmessage cid log f = log ++ [f.data] ∧ ¬ ∃ m ∈ log, m.id = f.data.id) := by
  unfold onmessage
  split_ifs with h1 h2
  · exact Or.inr ⟨rfl, h2.2⟩
  · exact Or.inl rfl
  · exact Or.inl rfl

theorem onmessage_le_one (cid : String) (log : List TextMessage) (f : Frame)
    (h : ∀ j, idCount log j ≤ 1) : ∀ j, idCount (onmessage cid log f) j ≤ 1 := by
  intro j
  rcases onmessage_cases cid log f with heq | ⟨heq, hnot⟩
  · rw [heq]; exact h j
  · rw [heq, idCount_append, idCount_single]
    by_cases hj : f.data.id = j
    · have hz : idCount log j = 0 := by
        by_contra hpos
        have hpos' : 0 < idCount log j := Nat.pos_of_ne_zero hpos
        rcases (idCount_pos_iff log j).1 hpos' with ⟨m, hm, hmid⟩
        exact hnot ⟨m, hm, by rw [hmid, hj]⟩
      simp [hz, hj]
    · simp [hj]
      exact h j

theorem onmessage_mono (cid : String) (log : List TextMessage) (f : Frame) (i : String)
    (h : 0 < idCount log i) : 0 < idCount (onmessage cid log f) i := by
  rcases onmessage_cases cid log f with heq | ⟨heq, _⟩
  · rw [heq]; exact h
  · rw [heq, idCount_append]; exact Nat.lt_of_lt_of_le h (Nat.le_add_right _ _)

theorem onmessage_hit (cid : String) (log : List TextMessage) (f : Frame)
    (ht : f.type = "message") (hc : f.data.channelId = cid) :
    0 < idCount (onmessage cid log f) f.data.id := by
  unfold onmessage
  rw [if_pos ht]
  by_cases hex : ∃ m ∈ log, m.id = f.data.id
  · rw [if_neg (by intro hand; exact hand.2 hex)]
    exact (idCount_pos_iff log f.data.id).2 hex
  · rw [if_pos ⟨hc, hex⟩, idCount_append, idCount_single, if_pos rfl]
    omega

theorem runEvents_le_one (cid : String) (evs : List Frame) :
    ∀ log, (∀ j, idCount log j ≤ 1) → ∀ j, idCount (runEvents cid log evs) j ≤ 1 := by
  induction evs with
  | nil => intro log h; exact h
  | cons e rest ih =>
    intro log h
    exact ih (onmessage cid log e) (onmessage_le_one cid log e h)

theorem runEvents_mono (cid : String) (evs : List Frame) :
    ∀ log i, 0 < idCount log i → 0 < idCount (runEvents cid log evs) i := by
  induction evs with
  | nil => intro log i h; exact h
  | cons e rest ih =>
    intro log i h
    exact ih (onmessage cid log e) i (onmessage_mono cid log e i h)

theorem runEvents_hit (cid : String) (evs : List Frame) (f : Frame)
    (ht : f.type = "message") (hc : f.data.channelId = cid) :
    ∀ log, f ∈ evs → 0 < idCount (runEvents cid log evs) f.data.id := by
  induction evs with
  | nil => intro log hmem; cases hmem
  | cons e rest ih =>
    intro log hmem
    rcases List.mem_cons.1 hmem with hfe | hrest
    · subst hfe
      exact runEvents_mono cid rest (onmessage cid log f) f.data.id
        (onmessage_hit cid log f ht hc)
    · exact ih (onmessage cid log e) hrest

/-- C1: an inbound push event whose `channelId` differs from the current
channel is ignored, one whose id is already in the log is ignored, any other
`message` frame is appended at the end; and over every sequence of deliveries,
duplicates included, a delivered matching id ends up in the log exactly once
(starting from a log with no duplicated ids). -/
theorem claim1_onmessage_dedup (cid : String) (log : List TextMessage) (f : Frame)
    (evs : List Frame) :
    (f.type = "message" → f.data.channelId ≠ cid → onmessage cid log f = log) ∧
    ((∃ m ∈ log, m.id = f.data.id) → onmessage cid log f = log) ∧
    (f.type = "message" → f.data.channelId = cid → (¬ ∃ m ∈ log, m.id = f.data.id) →
      onmessage cid log f = log ++ [f.data]) ∧
    ((∀ j, idCount log j ≤ 1) → f ∈ evs → f.type = "message" →
      f.data.channelId = cid → idCount (runEvents cid log evs) f.data.id = 1) := by
  refine ⟨?_, ?_, ?_, ?_⟩
  · intro ht hc
    unfold onmessage
    rw [if_pos ht, if_neg (by intro hand; exact hc hand.1)]
  · intro hex
    unfold onmessage
    split_ifs with h1 h2
    · exact absurd hex h2.2
    · rfl
    · rfl
  · intro ht hc hnot
    unfold onmessage
    rw [if_pos ht, if_pos ⟨hc, hnot⟩]
  · intro h0 hmem ht hc
    have hle := runEvents_le_one cid evs log h0 f.data.id
    have hpos := runEvents_hit cid evs f ht hc log hmem
    omega

/-- Concrete author and messages used by the witnesses. -/
def uA : User := { id := "u1", name := "liz", image := "a.png" }

def mA : TextMessage :=
  { id := "m1", channelId := "ch", authorId := "u1", content := "hi"
    createdTimestamp := 1, nonce := none, author := uA, embeds := [] }

def fA : Frame := { type := "message", data := mA }

theorem claim1_witness :
    idCount (runEvents "ch" [] [fA, fA, fA]) "m1" = 1 ∧
      onmessage "ch" [] fA = [mA] := by
  constructor
  · exact (claim1_onmessage_dedup "ch" [] fA [fA, fA, fA]).2.2.2
      (by intro j; simp [idCount]) (by simp) rfl rfl
  · exact (claim1_onmessage_dedup "ch" [] fA []).2.2.1 rfl rfl (by simp)

/-- JS `String.prototype.trim`: the string with whitespace removed from both
ends, written over the character list so that it evaluates by kernel
reduction. -/
def jsTrim (s : String) : String :=
  (((s.data.dropWhile Char.isWhitespace).reverse.dropWhile Char.isWhitespace).reverse).asString

/-- An outbound `createMessageMutation.mutate` request payload
`{ channelId, content, nonce? }` (the first page version passes no nonce). -/
structure CreateCall where
  channelId : String
  content : String
  nonce : Option String
deriving DecidableEq, Repr

/-- Component state of the first page version relevant to `sendMessage`:
the controlled `message` input state, the message log, and the createMessage
calls issued so far. -/
structure V1State where
  message : String
  log : List TextMessage
  calls : List CreateCall
deriving DecidableEq, Repr

/-- The first version's `sendMessage`: returns with no effect when
`message.trim() === ''`, otherwise issues
`createMessageMutation.mutate({ channelId, content: message })` and clears
the input state. -/
def sendMessageV1 (cid : String) (s : V1State) : V1State :=
  if jsTrim s.message = "" then s
  else
    { s with
      calls := s.calls ++ [{ channelId := cid, content := s.message, nonce := none }]
      message := "" }

/-- Component state of the second page version: the `useMessages` log, the
single `pendingMessage` and `pendingNonce` refs, and the createMessage calls
issued so far. -/
structure SendState where
  log : List TextMessage
  pendingMessage : Option TextMessage
  pendingNonce : Option String
  calls : List CreateCall
deriving DecidableEq, Repr

/-- The second version's `sendMessage(msg)`: returns with no effect when
`TRIMCALL() === ''`; otherwise overwrites `pendingMessage.current` with a
locally-built message (empty id, trimmed content, the session user as author,
no embeds), overwrites `pendingNonce.current` with a fresh UUID (`freshNonce`
here), and issues `createMessageMutation.mutate({ channelId, content: msg,
nonce })`.  The pending refs are single slots: a prior unresolved value is
replaced, not queued behind. -/
def sendMessageV2 (cid : String) (u : User) (t : Nat) (freshNonce : String)
    (s : SendState) (msg : String) : SendState :=
  if jsTrim msg = "" then s
  else
    { s with
      pendingMessage := some
        { id := "", channelId := cid, authorId := u.id, content := jsTrim msg
          createdTimestamp := t, nonce := none, author := u, embeds := [] }
      pendingNonce := some freshNonce
      calls := s.calls ++ [{ channelId := cid, content := msg, nonce := some freshNonce }] }

/-- Modelled from the spec: the `useMessages` hook (imported from
`hooks/useMessages`) is not in the source tree; per §4.2 an incoming
broadcast for this channel is dropped when its `channelId` differs or its id
is already present, and is otherwise appended at the end of the log; per §6
the broadcast carries the sender's `nonce`, and the hook then invokes the
page's callback `(msg, nonce)` whose body — which IS in the source — clears
`pendingNonce.current` and `pendingMessage.current` when
`pendingNonce.current === nonce`. -/
def onBroadcastV2 (cid : String) (s : SendState) (m : TextMessage) : SendState :=
  if m.channelId = cid ∧ ¬ ∃ x ∈ s.log, x.id = m.id then
    let s1 : SendState := { s with log := s.log ++ [m] }
    match m.nonce with
    | some n =>
        if s1.pendingNonce = some n then
          { s1 with pendingMessage := none, pendingNonce := none }
        else s1
    | none => s1
  else s

/-- The rendered sequence of the second version: the log entries, then the
pending entry (if any) after the authoritative tail. -/
def visibleV2 (s : SendState) : List TextMessage :=
  s.log ++ s.pendingMessage.toList

/-- Number of visible entries carrying a given content. -/
def contentCount (l : List TextMessage) (c : String) : Nat :=
  l.countP fun m => m.content == c

/-- The second version invokes `createMessageMutation.mutate` with a bare
payload — no `onError`/`onSuccess` options — so settlement of the
createMessage call, success or failure alike, runs no component code and
leaves the component state untouched. -/
def onCreateMessageSettled (s : SendState) (_success : Bool) : SendState := s

theorem contentCount_append (l₁ l₂ : List TextMessage) (c : String) :
    contentCount (l₁ ++ l₂) c = contentCount l₁ c + contentCount l₂ c := by
  simp [contentCount, List.countP_append]

/-- C2: a send of non-empty content followed by the broadcast carrying the
matching nonce removes the pending entry and appends the authoritative
message, so a content that was not yet in the log is visible exactly once
afterwards — never twice. -/
theorem claim2_nonce_resolution (cid : String) (u : User) (t : Nat) (n : String)
    (s : SendState) (msg : String) (m : TextMessage)
    (hne : ¬ jsTrim msg = "") (hc : m.content = jsTrim msg) (hch : m.channelId = cid)
    (hn : m.nonce = some n) (hid : ¬ ∃ x ∈ s.log, x.id = m.id)
    (h0 : contentCount s.log (jsTrim msg) = 0) :
    (onBroadcastV2 cid (sendMessageV2 cid u t n s msg) m).pendingMessage = none ∧
    (onBroadcastV2 cid (sendMessageV2 cid u t n s msg) m).log = s.log ++ [m] ∧
    contentCount (visibleV2 (onBroadcastV2 cid (sendMessageV2 cid u t n s msg) m))
      (jsTrim msg) = 1 := by
  have hsend : sendMessageV2 cid u t n s msg =
      { s with
        pendingMessage := some
          { id := "", channelId := cid, authorId := u.id, content := jsTrim msg
            createdTimestamp := t, nonce := none, author := u, embeds := [] }
        pendingNonce := some n
        calls := s.calls ++ [{ channelId := cid, content := msg, nonce := some n }] } := by
    unfold sendMessageV2
    rw [if_neg hne]
  have hbc : onBroadcastV2 cid (sendMessageV2 cid u t n s msg) m =
      { sendMessageV2 cid u t n s msg with
        log := s.log ++ [m], pendingMessage := none, pendingNonce := none } := by
    rw [hsend]
    unfold onBroadcastV2
    rw [if_pos ⟨hch, hid⟩]
    simp [hn]
  refine ⟨by rw [hbc], by rw [hbc], ?_⟩
  rw [hbc]
  simp only [visibleV2, Option.toList]
  rw [List.append_nil, contentCount_append]
  rw [h0]
  simp [contentCount, List.countP_cons, hc]

/-- Empty second-version component state used by concrete witnesses. -/
def s0 : SendState := { log := [], pendingMessage := none, pendingNonce := none, calls := [] }

theorem claim2_witness :
    ¬ jsTrim "hi" = "" ∧
    (onBroadcastV2 "ch"
      (sendMessageV2 "ch" uA 0 "n1" s0 "hi")
      { mA with nonce := some "n1" }).pendingMessage = none ∧
    (onBroadcastV2 "ch" (sendMessageV2 "ch" uA 0 "n1" s0 "hi")
      { mA with nonce := some "n1" }).log = [] ++ [{ mA with nonce := some "n1" }] ∧
    contentCount (visibleV2 (onBroadcastV2 "ch"
      (sendMessageV2 "ch" uA 0 "n1" s0 "hi")
      { mA with nonce := some "n1" })) (jsTrim "hi") = 1 := by
  have h := claim2_nonce_resolution "ch" uA 0 "n1" s0 "hi"
    { mA with nonce := some "n1" }
    (by decide) (by decide) rfl rfl (by simp [s0]) (by decide)
  exact ⟨by decide, h.1, h.2.1, h.2.2⟩

/-- C3 fails on the code: `pendingMessage`/`pendingNonce` are single refs, so a
send issued while a prior pending entry is unresolved overwrites it.  After
sending "a" (nonce "na") and then "b" (nonce "nb"), the first send was
tracked, but the resulting state tracks only "b"/"nb": no component of the
pending state still holds the first in-flight send, refuting the FIFO-queue
claim at this concrete input. -/
theorem claim3_counterexample :
    ((sendMessageV2 "ch" uA 0 "na" s0 "a").pendingMessage.map fun m => m.content)
        = some "a" ∧
    ((sendMessageV2 "ch" uA 1 "nb" (sendMessageV2 "ch" uA 0 "na" s0 "a") "b").pendingMessage.map
        fun m => m.content) = some "b" ∧
    ¬ ((sendMessageV2 "ch" uA 1 "nb" (sendMessageV2 "ch" uA 0 "na" s0 "a") "b").pendingMessage.map
        fun m => m.content) = some "a" ∧
    (sendMessageV2 "ch" uA 1 "nb" (sendMessageV2 "ch" uA 0 "na" s0 "a") "b").pendingNonce
        = some "nb" ∧
    ¬ (sendMessageV2 "ch" uA 1 "nb" (sendMessageV2 "ch" uA 0 "na" s0 "a") "b").pendingNonce
        = some "na" := by
  refine ⟨by decide, by decide, by decide, by decide, by decide⟩

/-- C3 amended: a non-empty send unconditionally overwrites the pending refs —
whatever pending entry was unresolved before, afterwards the single pending
slot holds exactly the new message and the fresh nonce, so only the most
recent in-flight send is tracked. -/
theorem claim3_overwrite (cid : String) (u : User) (t : Nat) (n : String)
    (s : SendState) (msg : String) (hne : ¬ jsTrim msg = "") :
    (sendMessageV2 cid u t n s msg).pendingMessage = some
      { id := "", channelId := cid, authorId := u.id, content := jsTrim msg
        createdTimestamp := t, nonce := none, author := u, embeds := [] } ∧
    (sendMessageV2 cid u t n s msg).pendingNonce = some n := by
  unfold sendMessageV2
  rw [if_neg hne]
  exact ⟨rfl, rfl⟩

theorem claim3_overwrite_witness :
    (sendMessageV2 "ch" uA 1 "nb" (sendMessageV2 "ch" uA 0 "na" s0 "a") "b").pendingMessage
        = some
          { id := "", channelId := "ch", authorId := "u1", content := jsTrim "b"
            createdTimestamp := 1, nonce := none, author := uA, embeds := [] } ∧
    (sendMessageV2 "ch" uA 1 "nb" (sendMessageV2 "ch" uA 0 "na" s0 "a") "b").pendingNonce
        = some "nb" :=
  claim3_overwrite "ch" uA 1 "nb" (sendMessageV2 "ch" uA 0 "na" s0 "a") "b" (by decide)

/-- C7: in both page versions, a send whose content trims to the empty string
returns before doing anything — the component state is unchanged, so no
pending entry is created and no createMessage call is issued. -/
theorem claim7_empty_send_rejected (cid : String) (s : V1State) (u : User)
    (t : Nat) (n : String) (s2 : SendState) (msg : String) :
    (jsTrim s.message = "" → sendMessageV1 cid s = s) ∧
    (jsTrim msg = "" → sendMessageV2 cid u t n s2 msg = s2) := by
  constructor
  · intro h
    unfold sendMessageV1
    rw [if_pos h]
  · intro h
    unfold sendMessageV2
    rw [if_pos h]

theorem claim7_witness :
    sendMessageV1 "ch" { message := "   ", log := [], calls := [] }
        = { message := "   ", log := [], calls := [] } ∧
    sendMessageV2 "ch" uA 0 "n1" s0 "   " = s0 ∧
    sendMessageV2 "ch" uA 0 "n1" s0 "" = s0 := by
  refine ⟨?_, ?_, ?_⟩
  · exact (claim7_empty_send_rejected "ch" { message := "   ", log := [], calls := [] }
      uA 0 "n1" s0 "   ").1 (by decide)
  · exact (claim7_empty_send_rejected "ch" { message := "", log := [], calls := [] }
      uA 0 "n1" s0 "   ").2 (by decide)
  · exact (claim7_empty_send_rejected "ch" { message := "", log := [], calls := [] }
      uA 0 "n1" s0 "").2 (by decide)

/-- C9: the code has no failure path for the createMessage call — `mutate` is
invoked without handlers, so a failed call leaves the component state exactly
as it was: the optimistic entry stays in the pending slot, is never marked
failed (the state has no failed notion at all), and no retry affordance
exists.  Evaluated at the failing input of a sent "hi" whose call fails. -/
theorem claim9_failure_leaves_pending_dangling (s : SendState) :
    onCreateMessageSettled s false = s ∧
    onCreateMessageSettled (sendMessageV2 "ch" uA 0 "n1" s0 "hi") false
        = sendMessageV2 "ch" uA 0 "n1" s0 "hi" ∧
    ((onCreateMessageSettled (sendMessageV2 "ch" uA 0 "n1" s0 "hi") false).pendingMessage.map
        fun m => m.content) = some "hi" :=
  ⟨rfl, rfl, by decide⟩

/-- Component state of the first page version around the WebSocket effect:
the `wsInstance` ref (a connection identifier while one is referenced), the
`waitingToReconnect` state, the pending `setTimeout` reconnect delays, the
DOM value of the `textInput` element, and the controlled `message` React
state. -/
structure WsState where
  wsInstance : Option Nat
  waitingToReconnect : Bool
  timers : List Nat
  textInput : String
  message : String
deriving DecidableEq, Repr

/-- The first version's `client.onclose` handler.  `capturedWaiting` is the
`waitingToReconnect` value captured by the handler's closure; the effect
installs the handler only on a run where that value is `false` (the effect
returns at once when `waitingToReconnect` is set).  If `wsInstance.current`
is null the close came from the component's own cleanup and the handler
returns; otherwise it sets `waitingToReconnect`, empties the `textInput` DOM
element, and schedules one `setTimeout(..., 5000)` that will clear
`waitingToReconnect` and so re-open the socket. -/
def oncloseHandler (capturedWaiting : Bool) (s : WsState) : WsState :=
  match s.wsInstance with
  | none => s
  | some _ =>
      if capturedWaiting then s
      else { s with waitingToReconnect := true, textInput := "", timers := s.timers ++ [5000] }

/-- C4: a close that is not app-initiated (`wsInstance` still set) moves the
state to reconnect-pending with exactly one timer scheduled at the fixed
5000 ms delay; a close after the component's own cleanup (`wsInstance`
nulled) changes nothing — disconnected, nothing scheduled. -/
theorem claim4_onclose_transitions (s t : WsState) (c : Nat) :
    (oncloseHandler false { s with wsInstance := some c }).waitingToReconnect = true ∧
    (oncloseHandler false { s with wsInstance := some c }).timers = s.timers ++ [5000] ∧
    oncloseHandler false { t with wsInstance := none } = { t with wsInstance := none } := by
  refine ⟨rfl, rfl, ?_⟩
  unfold oncloseHandler
  rfl

/-- C6 fails on the code: the `onclose` handler of an unexpected close
executes `(document.getElementById('textInput') as HTMLInputElement).value
= ""`, discarding the user's composed-but-unsent input — here a drafted
"draft" is wiped to the empty string by the connectivity loss. -/
theorem claim6_counterexample :
    (oncloseHandler false
      { wsInstance := some 0, waitingToReconnect := false, timers := []
        textInput := "draft", message := "draft" }).textInput = "" ∧
    ¬ (oncloseHandler false
      { wsInstance := some 0, waitingToReconnect := false, timers := []
        textInput := "draft", message := "draft" }).textInput = "draft" := by
  refine ⟨rfl, by decide⟩

/-- C6 amended: on an unexpected close the handler empties the visible
`textInput` element, so the composed draft is discarded from the input box;
the controlled `message` React state is the only part the handler leaves
intact. -/
theorem claim6_input_cleared (s : WsState) (c : Nat) :
    (oncloseHandler false { s with wsInstance := some c }).textInput = "" ∧
    (oncloseHandler false { s with wsInstance := some c }).message = s.message :=
  ⟨rfl, rfl⟩

/-- Global connection-manager state for the first version: the `wsInstance`
ref, the identifiers of underlying sockets currently live (constructed and
not yet closed), a fresh-id counter, and `waitingToReconnect`. -/
structure ConnSys where
  wsInstance : Option Nat
  live : List Nat
  nextId : Nat
  waiting : Bool
deriving DecidableEq, Repr

/-- The connection-lifecycle events of the first version's WebSocket effect. -/
inductive WsEvent
  | runEffect
  | cleanup
  | serverClose
  | timerFire
deriving DecidableEq, Repr

/-- One step of the connection lifecycle, from the source effect:
`runEffect` is the effect body — it returns at once when
`waitingToReconnect` is set, is a no-op when `wsInstance.current` is already
set, and otherwise constructs one `new WebSocket(...)` and stores it in the
ref; `cleanup` is the effect cleanup — it nulls the ref and closes that
client; `serverClose` is an unexpected close of the current socket — the
socket dies, the ref keeps pointing at it, and `waitingToReconnect` is set;
`timerFire` is the 5-second `setTimeout` clearing `waitingToReconnect`. -/
def sysStep (s : ConnSys) : WsEvent → ConnSys
  | .runEffect =>
      if s.waiting then s
      else
        match s.wsInstance with
        | some _ => s
        | none =>
            { s with
              wsInstance := some s.nextId
              live := s.live ++ [s.nextId]
              nextId := s.nextId + 1 }
  | .cleanup =>
      match s.wsInstance with
      | none => s
      | some c => { s with wsInstance := none, live := s.live.filter fun x => x != c }
  | .serverClose =>
      match s.wsInstance with
      | none => s
      | some c => { s with live := s.live.filter fun x => x != c, waiting := true }
  | .timerFire => { s with waiting := false }

/-- Initial state: no ref, no live socket. -/
def sysInit : ConnSys := { wsInstance := none, live := [], nextId := 0, waiting := false }

/-- Running a sequence of lifecycle events from the initial state. -/
def runSys (evs : List WsEvent) : ConnSys := evs.foldl sysStep sysInit

/-- The live sockets are at most the one the ref points to. -/
def connInv (s : ConnSys) : Prop :=
  match s.wsInstance with
  | none => s.live = []
  | some c => s.live = [] ∨ s.live = [c]

theorem connInv_init : connInv sysInit := rfl

theorem connInv_step (s : ConnSys) (e : WsEvent) (h : connInv s) :
    connInv (sysStep s e) := by
  obtain ⟨inst, live, nid, w⟩ := s
  cases e with
  | runEffect =>
    cases w with
    | true => simpa [sysStep] using h
    | false =>
      cases inst with
      | some c => simpa [sysStep] using h
      | none =>
        simp only [connInv] at h
        simp [sysStep, connInv, h]
  | cleanup =>
    cases inst with
    | none => simpa [sysStep] using h
    | some c =>
      simp only [connInv] at h
      rcases h with h | h <;> simp [sysStep, connInv, h]
  | serverClose =>
    cases inst with
    | none => simpa [sysStep] using h
    | some c =>
      simp only [connInv] at h
      rcases h with h | h <;> simp [sysStep, connInv, h]
  | timerFire =>
    cases inst with
    | none => simpa [sysStep, connInv] using h
    | some c => simpa [sysStep, connInv] using h

theorem connInv_run (evs : List WsEvent) : ∀ s, connInv s → connInv (evs.foldl sysStep s) := by
  induction evs with
  | nil => intro s h; exact h
  | cons e rest ih =>
    intro s h
    exact ih (sysStep s e) (connInv_step s e h)

theorem connInv_live_le_one (s : ConnSys) (h : connInv s) : s.live.length ≤ 1 := by
  unfold connInv at h
  cases hinst : s.wsInstance with
  | none => rw [hinst] at h; simp [h]
  | some c => rw [hinst] at h; rcases h with h | h <;> simp [h]

/-- C5: along every sequence of lifecycle events from the initial state, at
most one underlying socket is live at a time; and running the effect while a
socket is already referenced is a no-op on the state. -/
theorem claim5_single_connection (evs : List WsEvent) :
    (runSys evs).live.length ≤ 1 ∧
    (∀ s c, s.wsInstance = some c → sysStep s .runEffect = s) := by
  constructor
  · exact connInv_live_le_one (runSys evs) (connInv_run evs sysInit connInv_init)
  · intro s c hinst
    obtain ⟨inst, live, nid, w⟩ := s
    have hinst' : inst = some c := hinst
    subst hinst'
    cases w <;> simp [sysStep]

theorem claim5_witness :
    (runSys [.runEffect, .serverClose, .cleanup, .timerFire, .runEffect]).live.length ≤ 1 ∧
    sysStep { wsInstance := some 0, live := [0], nextId := 1, waiting := false }
      .runEffect = { wsInstance := some 0, live := [0], nextId := 1, waiting := false } := by
  constructor
  · exact (claim5_single_connection [.runEffect, .serverClose, .cleanup, .timerFire, .runEffect]).1
  · exact (claim5_single_connection []).2
      { wsInstance := some 0, live := [0], nextId := 1, waiting := false } 0 rfl

/-- State the raw `onmessage` frame handler can touch: the message log, the
liveness of the socket, and a count of diagnostics emitted for handler
failures. -/
structure HandlerState where
  log : List TextMessage
  connOpen : Bool
  errors : Nat
deriving DecidableEq, Repr

/-- The raw frame path of the first version's `wsClient.onmessage`: the body
begins with `JSON.parse(event.data)`, so a payload that fails to parse
(modelled by `parse` returning `none`) throws before any state mutation —
the uncaught exception is reported as a diagnostic, the handler aborts, and
the socket is not closed.  A parsed frame is handled by `onmessage`, which
ignores any envelope whose `type` is not `"message"`. -/
def onmessageRaw (cid : String) (parse : String → Option Frame)
    (s : HandlerState) (raw : String) : HandlerState :=
  match parse raw with
  | none => { s with errors := s.errors + 1 }
  | some f => { s with log := onmessage cid s.log f }

/-- C8: a malformed inbound payload is recorded and dropped — the log is not
touched and the connection stays as it was — and a well-formed frame with an
unrecognized envelope type leaves the state entirely unchanged. -/
theorem claim8_malformed_and_unknown_frames (cid : String)
    (parse : String → Option Frame) (s : HandlerState) (raw : String) (f : Frame) :
    (parse raw = none →
      (onmessageRaw cid parse s raw).log = s.log ∧
      (onmessageRaw cid parse s raw).connOpen = s.connOpen ∧
      (onmessageRaw cid parse s raw).errors = s.errors + 1) ∧
    (parse raw = some f → f.type ≠ "message" →
      onmessageRaw cid parse s raw = s) := by
  constructor
  · intro h
    unfold onmessageRaw
    rw [h]
    exact ⟨rfl, rfl, rfl⟩
  · intro h ht
    simp only [onmessageRaw, h]
    unfold onmessage
    rw [if_neg ht]

/-- A frame of an unrecognized envelope type, used by the C8 witness. -/
def fTyping : Frame := { type := "typing", data := mA }

theorem claim8_witness :
    (onmessageRaw "ch" (fun _ => none)
        { log := [mA], connOpen := true, errors := 0 } "not-json").log = [mA] ∧
    (onmessageRaw "ch" (fun _ => none)
        { log := [mA], connOpen := true, errors := 0 } "not-json").connOpen = true ∧
    (onmessageRaw "ch" (fun _ => none)
        { log := [mA], connOpen := true, errors := 0 } "not-json").errors = 0 + 1 ∧
    onmessageRaw "ch" (fun _ => some fTyping)
        { log := [mA], connOpen := true, errors := 0 } "frame"
      = { log := [mA], connOpen := true, errors := 0 } := by
  have h1 := (claim8_malformed_and_unknown_frames "ch" (fun _ => none)
    { log := [mA], connOpen := true, errors := 0 } "not-json" fTyping).1 rfl
  have h2 := (claim8_malformed_and_unknown_frames "ch" (fun _ => some fTyping)
    { log := [mA], connOpen := true, errors := 0 } "frame" fTyping).2 rfl (by decide)
  exact ⟨h1.1, h1.2.1, h1.2.2, h2⟩

/-- A channel row as `getServerSideProps` returns it. -/
structure TextChannel where
  id : String
  name : String
deriving DecidableEq, Repr

/-- The resolved authentication session of the request (what
`getServerAuthSession` would yield if awaited; `none` = unauthenticated). -/
structure Session where
  userId : String
deriving DecidableEq, Repr

/-- The outcomes of `getServerSideProps`: the redirect to `/`, the 404, or
the page props carrying the channel. -/
inductive GsspResult
  | redirectHome
  | notFound
  | pageProps : TextChannel → GsspResult
deriving DecidableEq, Repr

/-- JS truthiness of `const session = getServerAuthSession({ req, res })`
written without `await`: the binding holds a Promise object, and an object
is truthy whatever session the promise would resolve to. -/
def sessionPromiseTruthy (_resolvedSession : Option Session) : Bool := true

/-- The first version's `getServerSideProps`: redirects to `/` when
`!session || !params`, where `session` is the un-awaited promise above;
otherwise looks the channel up by `params['id']`, returning `notFound` when
it is absent and the props when it exists. -/
def getServerSidePropsV1 (resolvedSession : Option Session) (params : Option String)
    (findChannel : String → Option TextChannel) : GsspResult :=
  if !(sessionPromiseTruthy resolvedSession) || params.isNone then .redirectHome
  else
    match params with
    | none => .redirectHome
    | some pid =>
        match findChannel pid with
        | none => .notFound
        | some ch => .pageProps ch

/-- C10: because the session check tests an un-awaited promise, the redirect
is taken exactly when the route params are absent; the resolved session is
irrelevant, so an unauthenticated request with params present is never
redirected by the session check. -/
theorem claim10_unawaited_session_check (resolvedSession : Option Session)
    (params : Option String) (findChannel : String → Option TextChannel) :
    (getServerSidePropsV1 resolvedSession params findChannel = .redirectHome
       ↔ params = none) ∧
    getServerSidePropsV1 resolvedSession params findChannel
      = getServerSidePropsV1 none params findChannel := by
  constructor
  · cases params with
    | none => simp [getServerSidePropsV1]
    | some pid =>
      simp only [getServerSidePropsV1, sessionPromiseTruthy, Option.isNone_some,
        Bool.not_true, Bool.false_or]
      cases findChannel pid <;> simp
  · rfl

end Iridium
